import Mathlib

/-! dwm configuration tables (`dwm/config.h`).

A shallow embedding of the declarative tables of `config.h`: tags, rules,
command vectors, layouts, key bindings and button bindings, together with the
lookup contract (`resolveRule`, `dispatchKey`, `dispatchButton`,
`activeLayout`, the launcher substitution of `spawn`) that the window-manager
core applies to them.

Conventions.
* `unsigned int` values are natural numbers reduced modulo `2 ^ 32`.
* A C string constant is a `String`; the string a process receives is the list
  of its bytes. A `char` is a natural number reduced modulo `2 ^ 8`.
* X11 constants (`ShiftMask`, `XK_d`, `Button1`, ...) carry the numeric values
  of `X11/X.h`, `X11/keysymdef.h` and `X11/XF86keysym.h`.
* Pointers are symbolic: a pointer to a command vector is the vector's
  identifier, a pointer into `layouts` is an index.
-/

namespace Dwm

/-! ## X11 constants -/

/-- Width of `unsigned int`. -/
def UINT_BITS : Nat := 32

/-- Reduction of a value to `unsigned int`. -/
def toUInt (n : Nat) : Nat := n % 2 ^ UINT_BITS

/-- The C expression `~0` stored in an `unsigned int`: all bits set. -/
def notZero : Nat := 2 ^ UINT_BITS - 1

def ShiftMask : Nat := 1 <<< 0
def ControlMask : Nat := 1 <<< 2
def Mod4Mask : Nat := 1 <<< 6

def Button1 : Nat := 1
def Button2 : Nat := 2
def Button3 : Nat := 3

def XK_space : Nat := 0x0020
def XK_comma : Nat := 0x002c
def XK_period : Nat := 0x002e
def XK_0 : Nat := 0x0030
def XK_1 : Nat := 0x0031
def XK_2 : Nat := 0x0032
def XK_3 : Nat := 0x0033
def XK_4 : Nat := 0x0034
def XK_5 : Nat := 0x0035
def XK_6 : Nat := 0x0036
def XK_7 : Nat := 0x0037
def XK_8 : Nat := 0x0038
def XK_9 : Nat := 0x0039
def XK_a : Nat := 0x0061
def XK_b : Nat := 0x0062
def XK_d : Nat := 0x0064
def XK_f : Nat := 0x0066
def XK_h : Nat := 0x0068
def XK_i : Nat := 0x0069
def XK_j : Nat := 0x006a
def XK_k : Nat := 0x006b
def XK_l : Nat := 0x006c
def XK_m : Nat := 0x006d
def XK_o : Nat := 0x006f
def XK_p : Nat := 0x0070
def XK_q : Nat := 0x0071
def XK_t : Nat := 0x0074
def XK_x : Nat := 0x0078
def XK_Tab : Nat := 0xff09
def XK_Return : Nat := 0xff0d
def XK_F9 : Nat := 0xffc6
def XK_F10 : Nat := 0xffc7
def XF86XK_AudioLowerVolume : Nat := 0x1008FF11
def XF86XK_AudioMute : Nat := 0x1008FF12
def XF86XK_AudioRaiseVolume : Nat := 0x1008FF13
def XF86XK_AudioPrev : Nat := 0x1008FF16
def XF86XK_AudioNext : Nat := 0x1008FF17

/-! ## Types of the tables -/

/-- Identifier of a command vector (`static const char *name[]`). -/
inductive CmdId
  | upvol | downvol | mutevol | play_pause | next | prev | brightInc | brightDec
  | dmenucmd | termcmd | editorcmd | browsercmd | filemanagercmd | mixercmd
  deriving DecidableEq, Repr

/-- One slot of a command vector: a pointer to a constant string, a pointer to
the mutable array `dmenumon`, or `NULL`. -/
inductive ArgvElem
  | str (s : String)
  | dmenumon
  | null
  deriving DecidableEq, Repr

/-- Arrangement functions a layout can refer to. -/
inductive ArrangeFn
  | tile | monocle
  deriving DecidableEq, Repr

/-- Modelled from the spec: the `Layout` type (declared in the core, not in
`config.h`): a symbol and an optional reference to an arrangement function. -/
structure Layout where
  symbol : String
  arrange : Option ArrangeFn
  deriving DecidableEq, Repr

/-- Modelled from the spec: the `Rule` type (declared in the core): optional
class, instance and title patterns (`none` is `NULL`), tag mask, floating flag,
monitor. -/
structure Rule where
  cls : Option String
  inst : Option String
  title : Option String
  tags : Nat
  isfloating : Bool
  monitor : Int
  deriving DecidableEq, Repr

/-- Value of a `const void *` member: null, a command vector, or
`&layouts[i]`. -/
inductive VoidPtr
  | null
  | cmd (c : CmdId)
  | layout (i : Nat)
  deriving DecidableEq, Repr

/-- Modelled from the spec: the `Arg` union (declared in the core) with its
variants integer, unsigned integer, float, pointer; `zero` is the initialiser
`{0}`. A float literal is kept as its decimal value in hundredths. -/
inductive Arg
  | zero
  | i (n : Int)
  | ui (n : Nat)
  | f (hundredths : Int)
  | v (p : VoidPtr)
  deriving DecidableEq, Repr

/-- Action functions of the core that the tables refer to. -/
inductive Action
  | spawn | togglebar | focusstack | incnmaster | setmfact | zoom | view
  | killclient | setlayout | togglefullscr | togglefloating | tag | focusmon
  | tagmon | toggleview | toggletag | quit | movemouse | resizemouse
  deriving DecidableEq, Repr

/-- Click contexts of a button binding. -/
inductive Click
  | ClkTagBar | ClkLtSymbol | ClkStatusText | ClkWinTitle | ClkClientWin
  | ClkRootWin
  deriving DecidableEq, Repr

/-- Modelled from the spec: the `Key` type (declared in the core): modifier
mask, key symbol, action, argument. -/
structure Key where
  mod : Nat
  keysym : Nat
  func : Action
  arg : Arg
  deriving DecidableEq, Repr

/-- Modelled from the spec: the `Button` type (declared in the core): click
context, modifier mask, button, action, argument. -/
structure Button where
  click : Click
  mask : Nat
  button : Nat
  func : Action
  arg : Arg
  deriving DecidableEq, Repr

/-! ## The tables of `config.h` -/

def dmenufont : String := "Misc Termsyn:size=10"
def col_gray1 : String := "#282828"
def col_gray2 : String := "#444444"
def col_gray3 : String := "#cccccc"
def col_gray4 : String := "#eeeeee"
def col_cyan : String := "#928374"

def tags : List String :=
  ["\uF269", "\uF120", "\uF121", "\uF02E", "\uF302", "\uF085", "\uF09B",
   "\uF39F", "\uF1BC"]

def rules : List Rule :=
  [ { cls := some "Gimp", inst := none, title := none,
      tags := toUInt 0, isfloating := true, monitor := -1 },
    { cls := some "Firefox", inst := none, title := none,
      tags := toUInt (1 <<< 8), isfloating := false, monitor := -1 } ]

def upvol : List ArgvElem :=
  [.str "/usr/bin/pactl", .str "set-sink-volume", .str "0", .str "+5%", .null]

def downvol : List ArgvElem :=
  [.str "/usr/bin/pactl", .str "set-sink-volume", .str "0", .str "-5%", .null]

def mutevol : List ArgvElem :=
  [.str "/usr/bin/pactl", .str "set-sink-mute", .str "0", .str "toggle", .null]

def play_pause : List ArgvElem :=
  [.str "/usr/bin/playerctl", .str "play-pause", .null]

def next : List ArgvElem := [.str "/usr/bin/playerctl", .str "next", .null]

def prev : List ArgvElem := [.str "/usr/bin/playerctl", .str "previous", .null]

def brightInc : List ArgvElem :=
  [.str "/usr/bin/xbacklight", .str "-inc", .str "20", .null]

def brightDec : List ArgvElem :=
  [.str "/ust/bin/xbacklight", .str "-dec", .str "20", .null]

def layouts : List Layout :=
  [ { symbol := "", arrange := some ArrangeFn.tile },
    { symbol := "", arrange := none },
    { symbol := "", arrange := some ArrangeFn.monocle } ]

def MODKEY : Nat := Mod4Mask

/-- The macro `TAGKEYS(KEY,TAG)`: the four bindings of one tag. -/
def TAGKEYS (KEY TAG : Nat) : List Key :=
  [ { mod := MODKEY, keysym := KEY, func := Action.view,
      arg := Arg.ui (toUInt (1 <<< TAG)) },
    { mod := MODKEY ||| ControlMask, keysym := KEY, func := Action.toggleview,
      arg := Arg.ui (toUInt (1 <<< TAG)) },
    { mod := MODKEY ||| ShiftMask, keysym := KEY, func := Action.tag,
      arg := Arg.ui (toUInt (1 <<< TAG)) },
    { mod := MODKEY ||| ControlMask ||| ShiftMask, keysym := KEY,
      func := Action.toggletag, arg := Arg.ui (toUInt (1 <<< TAG)) } ]

/-- Width of `char`. -/
def CHAR_BITS : Nat := 8

/-- Reduction of a value to a one-byte `char`. -/
def toChar (n : Nat) : Nat := n % 2 ^ CHAR_BITS

def dmenucmd : List ArgvElem :=
  [.str "dmenu_run", .str "-m", .dmenumon, .str "-fn", .str dmenufont, .str "-l",
   .str "20", .str "-nb", .str col_gray1, .str "-nf", .str col_gray3, .str "-sb",
   .str col_cyan, .str "-sf", .str col_gray4, .null]

def termcmd : List ArgvElem := [.str "st", .null]

def editorcmd : List ArgvElem := [.str "st", .str "-e", .str "nvim", .null]

def browsercmd : List ArgvElem := [.str "brave", .null]

def filemanagercmd : List ArgvElem := [.str "pcmanfm", .null]

def mixercmd : List ArgvElem := [.str "pulsemixer", .null]

/-- The array a command identifier names. -/
def CmdId.argv : CmdId → List ArgvElem
  | .upvol => Dwm.upvol
  | .downvol => Dwm.downvol
  | .mutevol => Dwm.mutevol
  | .play_pause => Dwm.play_pause
  | .next => Dwm.next
  | .prev => Dwm.prev
  | .brightInc => Dwm.brightInc
  | .brightDec => Dwm.brightDec
  | .dmenucmd => Dwm.dmenucmd
  | .termcmd => Dwm.termcmd
  | .editorcmd => Dwm.editorcmd
  | .browsercmd => Dwm.browsercmd
  | .filemanagercmd => Dwm.filemanagercmd
  | .mixercmd => Dwm.mixercmd

/-- Every command vector declared in `config.h`, in declaration order. -/
def allCmds : List CmdId :=
  [.upvol, .downvol, .mutevol, .play_pause, .next, .prev, .brightInc,
   .brightDec, .dmenucmd, .termcmd, .editorcmd, .browsercmd, .filemanagercmd,
   .mixercmd]

/-- The key bindings `keys`, in declaration order. -/
def keys : List Key :=
  [ { mod := MODKEY, keysym := XK_d, func := .spawn, arg := .v (.cmd .dmenucmd) },
    { mod := MODKEY, keysym := XK_o, func := .spawn, arg := .v (.cmd .editorcmd) },
    { mod := MODKEY, keysym := XK_m, func := .spawn, arg := .v (.cmd .filemanagercmd) },
    { mod := MODKEY ||| ShiftMask, keysym := XK_Return, func := .spawn,
      arg := .v (.cmd .termcmd) },
    { mod := MODKEY, keysym := XK_a, func := .spawn, arg := .v (.cmd .mixercmd) },
    { mod := MODKEY, keysym := XK_b, func := .togglebar, arg := .zero },
    { mod := MODKEY, keysym := XK_j, func := .focusstack, arg := .i 1 },
    { mod := MODKEY, keysym := XK_k, func := .focusstack, arg := .i (-1) },
    { mod := MODKEY, keysym := XK_i, func := .incnmaster, arg := .i 1 },
    { mod := MODKEY ||| ShiftMask, keysym := XK_i, func := .incnmaster, arg := .i (-1) },
    { mod := MODKEY, keysym := XK_p, func := .spawn, arg := .v (.cmd .browsercmd) },
    { mod := MODKEY, keysym := XK_h, func := .setmfact, arg := .f (-5) },
    { mod := MODKEY, keysym := XK_l, func := .setmfact, arg := .f 5 },
    { mod := MODKEY, keysym := XK_Return, func := .zoom, arg := .zero },
    { mod := MODKEY, keysym := XK_Tab, func := .view, arg := .zero },
    { mod := MODKEY ||| ShiftMask, keysym := XK_q, func := .killclient, arg := .zero },
    { mod := MODKEY, keysym := XK_t, func := .setlayout, arg := .v (.layout 0) },
    { mod := MODKEY ||| ShiftMask, keysym := XK_f, func := .setlayout,
      arg := .v (.layout 1) },
    { mod := MODKEY, keysym := XK_f, func := .togglefullscr, arg := .zero },
    { mod := MODKEY, keysym := XK_space, func := .setlayout, arg := .zero },
    { mod := MODKEY ||| ShiftMask, keysym := XK_space, func := .togglefloating,
      arg := .zero },
    { mod := MODKEY, keysym := XK_0, func := .view, arg := .ui notZero },
    { mod := MODKEY ||| ShiftMask, keysym := XK_0, func := .tag, arg := .ui notZero },
    { mod := MODKEY, keysym := XK_comma, func := .focusmon, arg := .i (-1) },
    { mod := MODKEY, keysym := XK_period, func := .focusmon, arg := .i 1 },
    { mod := MODKEY ||| ShiftMask, keysym := XK_comma, func := .tagmon, arg := .i (-1) },
    { mod := MODKEY ||| ShiftMask, keysym := XK_period, func := .tagmon, arg := .i 1 } ]
  ++ TAGKEYS XK_1 0
  ++ TAGKEYS XK_2 1
  ++ TAGKEYS XK_3 2
  ++ TAGKEYS XK_4 3
  ++ TAGKEYS XK_5 4
  ++ TAGKEYS XK_6 5
  ++ TAGKEYS XK_7 6
  ++ TAGKEYS XK_8 7
  ++ TAGKEYS XK_9 8
  ++
  [ { mod := MODKEY ||| ShiftMask, keysym := XK_x, func := .quit, arg := .zero },
    { mod := MODKEY ||| ControlMask, keysym := XK_space, func := .spawn,
      arg := .v (.cmd .play_pause) },
    { mod := 0, keysym := XF86XK_AudioPrev, func := .spawn, arg := .v (.cmd .prev) },
    { mod := 0, keysym := XF86XK_AudioNext, func := .spawn, arg := .v (.cmd .next) },
    { mod := 0, keysym := XF86XK_AudioLowerVolume, func := .spawn,
      arg := .v (.cmd .downvol) },
    { mod := 0, keysym := XF86XK_AudioMute, func := .spawn, arg := .v (.cmd .mutevol) },
    { mod := 0, keysym := XF86XK_AudioRaiseVolume, func := .spawn,
      arg := .v (.cmd .upvol) },
    { mod := MODKEY ||| ShiftMask, keysym := XK_F10, func := .spawn,
      arg := .v (.cmd .brightInc) },
    { mod := MODKEY ||| ShiftMask, keysym := XK_F9, func := .spawn,
      arg := .v (.cmd .brightDec) } ]

/-- The button bindings `buttons`, in declaration order. -/
def buttons : List Button :=
  [ { click := .ClkLtSymbol, mask := 0, button := Button1, func := .setlayout,
      arg := .zero },
    { click := .ClkLtSymbol, mask := 0, button := Button3, func := .setlayout,
      arg := .v (.layout 2) },
    { click := .ClkStatusText, mask := 0, button := Button2, func := .spawn,
      arg := .v (.cmd .termcmd) },
    { click := .ClkClientWin, mask := MODKEY, button := Button1, func := .movemouse,
      arg := .zero },
    { click := .ClkClientWin, mask := MODKEY, button := Button2,
      func := .togglefloating, arg := .zero },
    { click := .ClkClientWin, mask := MODKEY, button := Button3, func := .resizemouse,
      arg := .zero },
    { click := .ClkTagBar, mask := 0, button := Button1, func := .view, arg := .zero },
    { click := .ClkTagBar, mask := 0, button := Button3, func := .toggleview,
      arg := .zero },
    { click := .ClkTagBar, mask := MODKEY, button := Button1, func := .tag,
      arg := .zero },
    { click := .ClkTagBar, mask := MODKEY, button := Button3, func := .toggletag,
      arg := .zero } ]

/-! ## The lookup contract of the tables -/

/-- Modelled from the spec: a pattern field of a rule, absent from `config.h`:
an absent pattern is a wildcard, a specified pattern matches by exact string
equality. -/
def fieldMatches (pattern : Option String) (value : String) : Bool :=
  match pattern with
  | none => true
  | some p => p == value

/-- Modelled from the spec: rule matching, absent from `config.h`: all
specified fields of the rule must match simultaneously. -/
def ruleMatches (r : Rule) (cls inst title : String) : Bool :=
  fieldMatches r.cls cls && fieldMatches r.inst inst && fieldMatches r.title title

/-- Modelled from the spec: linear first-match scan of a rule table, absent from
`config.h`. -/
def resolveRuleIn : List Rule → String → String → String → Option Rule
  | [], _, _, _ => none
  | r :: rest, cls, inst, title =>
    if ruleMatches r cls inst title then some r
    else resolveRuleIn rest cls inst title

/-- Modelled from the spec: `resolveRule(class, instance, title) -> Rule?`,
absent from `config.h`, over the table `rules`. -/
def resolveRule (cls inst title : String) : Option Rule :=
  resolveRuleIn rules cls inst title

/-- Modelled from the spec: exact-match, first-match scan of a key table, absent
from `config.h`. -/
def dispatchKeyIn : List Key → Nat → Nat → Option (Action × Arg)
  | [], _, _ => none
  | e :: rest, modifierMask, keySym =>
    if e.mod = modifierMask ∧ e.keysym = keySym then some (e.func, e.arg)
    else dispatchKeyIn rest modifierMask keySym

/-- Modelled from the spec: `dispatchKey(modifierMask, keySym)`, absent from
`config.h`, over the table `keys`; `none` is the silent no-op. -/
def dispatchKey (modifierMask keySym : Nat) : Option (Action × Arg) :=
  dispatchKeyIn keys modifierMask keySym

/-- Modelled from the spec: exact-match, first-match scan of a button table,
keyed on click context, modifier mask and button; absent from `config.h`. -/
def dispatchButtonIn : List Button → Click → Nat → Nat → Option (Action × Arg)
  | [], _, _, _ => none
  | e :: rest, context, modifierMask, button =>
    if e.click = context ∧ e.mask = modifierMask ∧ e.button = button then
      some (e.func, e.arg)
    else dispatchButtonIn rest context modifierMask button

/-- Modelled from the spec: `dispatchButton(context, modifierMask, button)`,
absent from `config.h`, over the table `buttons`. -/
def dispatchButton (context : Click) (modifierMask button : Nat) :
    Option (Action × Arg) :=
  dispatchButtonIn buttons context modifierMask button

/-- Modelled from the spec: `activeLayout(index) -> Layout`, absent from
`config.h`: the entry of `layouts` at the given position (`none` out of
bounds). -/
def activeLayout (index : Nat) : Option Layout :=
  layouts.get? index

/-- Modelled from the spec: floating-mode report of a layout, absent from
`config.h`: a layout with no arrangement reference is floating. -/
def Layout.isFloating (l : Layout) : Bool :=
  l.arrange.isNone

/-- The C string held by the two-byte array `dmenumon` when `dmenumon[0]`
holds the byte `b` and `dmenumon[1]` is the terminator: empty when the byte is
NUL, the one byte otherwise. -/
def dmenumonString (b : Nat) : List Nat :=
  if toChar b = 0 then [] else [toChar b]

/-- The key symbols passed to `TAGKEYS` in `keys`, in tag order. -/
def tagKeysyms : List Nat := [XK_1, XK_2, XK_3, XK_4, XK_5, XK_6, XK_7, XK_8, XK_9]

/-- The key symbol bound to tag index `t` (`XK_1` for tag 0, ..., `XK_9` for
tag 8). -/
def tagKeysym (t : Nat) : Nat := tagKeysyms.getD t 0

/-- The mask with one bit per declared tag, `(1 << LENGTH(tags)) - 1`. -/
def allTagsMask : Nat := (1 <<< tags.length) - 1

/-- The program name `argv[0]` of a command vector, when it is a constant
string. -/
def argv0 (c : CmdId) : Option String :=
  match c.argv.head? with
  | some (.str s) => some s
  | _ => none

/-- Whether a path is absolute: it starts with a slash. -/
def isAbsolutePath (s : String) : Bool :=
  s.toList.head? == some '/'

/-- Whether a path lies under the directory `/usr/bin/`. -/
def inUsrBin (s : String) : Bool :=
  List.isPrefixOf "/usr/bin/".toList s.toList

/-- The indices at which two command vectors of equal length differ. -/
def differingSlots (a b : List ArgvElem) : List Nat :=
  (List.range a.length).filter (fun i => a.get? i != b.get? i)

/-! ## Helper lemmas -/

theorem one_shiftLeft_testBit (t j : Nat) : (1 <<< t).testBit j = decide (t = j) := by
  rw [Nat.one_shiftLeft, Nat.testBit_two_pow]

theorem testBit_false_of_lt_tagbits (n : Nat) (h : n < 2 ^ tags.length) (j : Nat)
    (hj : tags.length ≤ j) : n.testBit j = false := by
  apply Nat.testBit_lt_two_pow
  exact lt_of_lt_of_le h (Nat.pow_le_pow_right (by decide) hj)

theorem tagkey_args_single_bit :
    ∀ e ∈ keys, e.keysym ∈ tagKeysyms → ∃ t, t < tags.length ∧ e.arg = .ui (1 <<< t) := by
  decide

/-- A first-match scan returns `(f, a)` exactly when the table splits around an
entry `(m, k, f, a)` that no earlier entry matches. -/
theorem dispatchKeyIn_eq_some (l : List Key) (m k : Nat) (f : Action) (a : Arg) :
    dispatchKeyIn l m k = some (f, a) ↔
      ∃ pre post, l = pre ++ ⟨m, k, f, a⟩ :: post ∧
        ∀ e ∈ pre, ¬ (e.mod = m ∧ e.keysym = k) := by
  induction l with
  | nil => simp [dispatchKeyIn]
  | cons e rest ih =>
    by_cases h : e.mod = m ∧ e.keysym = k
    · simp only [dispatchKeyIn, h, and_self, if_true]
      constructor
      · intro hfa
        refine ⟨[], rest, ?_, by simp⟩
        obtain ⟨em, ek, ef, ea⟩ := e
        simp only [Option.some.injEq, Prod.mk.injEq] at hfa
        simp only at h
        simp [h.1, h.2, hfa.1, hfa.2]
      · rintro ⟨pre, post, hl, hpre⟩
        cases pre with
        | nil =>
          simp only [List.nil_append, List.cons.injEq] at hl
          rw [hl.1]
        | cons p pre =>
          simp only [List.cons_append, List.cons.injEq] at hl
          exact absurd h (hl.1 ▸ hpre p (List.mem_cons_self _ _))
    · simp only [dispatchKeyIn, h, if_false]
      rw [ih]
      constructor
      · rintro ⟨pre, post, hl, hpre⟩
        refine ⟨e :: pre, post, by simp [hl], ?_⟩
        intro x hx
        rcases List.mem_cons.mp hx with rfl | hx
        · exact h
        · exact hpre x hx
      · rintro ⟨pre, post, hl, hpre⟩
        cases pre with
        | nil =>
          simp only [List.nil_append, List.cons.injEq] at hl
          exact absurd (by rw [hl.1]; exact ⟨rfl, rfl⟩) h
        | cons p pre =>
          simp only [List.cons_append, List.cons.injEq] at hl
          exact ⟨pre, post, hl.2, fun x hx => hpre x (List.mem_cons_of_mem _ hx)⟩

/-- A first-match scan returns nothing exactly when no entry matches. -/
theorem dispatchKeyIn_eq_none (l : List Key) (m k : Nat) :
    dispatchKeyIn l m k = none ↔ ∀ e ∈ l, ¬ (e.mod = m ∧ e.keysym = k) := by
  induction l with
  | nil => simp [dispatchKeyIn]
  | cons e rest ih =>
    by_cases h : e.mod = m ∧ e.keysym = k
    · simp only [dispatchKeyIn, h, and_self, if_true, List.mem_cons, forall_eq_or_imp]
      simp [h]
    · simp only [dispatchKeyIn, h, if_false, List.mem_cons, forall_eq_or_imp, ih]
      simp [h]

/-- Two bytes give the same `dmenumon` string exactly when they are equal as
one-byte values. -/
theorem dmenumonString_eq_iff (b1 b2 : Nat) :
    dmenumonString b1 = dmenumonString b2 ↔ toChar b1 = toChar b2 := by
  unfold dmenumonString
  by_cases h1 : toChar b1 = 0 <;> by_cases h2 : toChar b2 = 0
  · simp [h1, h2]
  · simp [h1, h2, Ne.symm h2]
  · simp [h1, h2]
  · simp [h1, h2]

/-- Whatever character `spawn` stores for a monitor, a one-byte cell cannot
tell all monitor indices apart: some two different indices give the same
`dmenumon` string. -/
theorem one_byte_cell_cannot_separate_monitors (store : Nat → Nat) :
    ∃ m1 m2, m1 ≠ m2 ∧ dmenumonString (store m1) = dmenumonString (store m2) := by
  have hlt : ∀ m, store m % 256 < 256 := fun m => Nat.mod_lt _ (by decide)
  have hni : ¬ Function.Injective (fun m => (⟨store m % 256, hlt m⟩ : Fin 256)) :=
    not_injective_infinite_finite _
  simp only [Function.Injective, not_forall] at hni
  obtain ⟨m1, m2, heq, hne⟩ := hni
  refine ⟨m1, m2, hne, ?_⟩
  rw [dmenumonString_eq_iff]
  simpa [toChar, CHAR_BITS] using congrArg Fin.val heq

/-! ## Properties of the configuration -/

/-- C1: with the 9 tags of `tags`, `keys` holds exactly `4 * 9 = 36` entries
generated by `TAGKEYS` (positions 27 to 62, the only entries on the keys
`XK_1` .. `XK_9`), and for every tag index `t` the entries of `keys` on the key
of tag `t` are exactly the four bindings (MODKEY, view), (MODKEY|ControlMask,
toggleview), (MODKEY|ShiftMask, tag), (MODKEY|ControlMask|ShiftMask,
toggletag), each with the unsigned argument `1 << t`, whose only set bit is
bit `t`. -/
theorem tagkeys_generation :
    tags.length = 9 ∧ keys.length = 72 ∧
    (keys.drop 27).take 36 = (List.range tags.length).flatMap (fun t => TAGKEYS (tagKeysym t) t) ∧
    keys.filter (fun e => decide (e.keysym ∈ tagKeysyms))
      = (List.range tags.length).flatMap (fun t => TAGKEYS (tagKeysym t) t) ∧
    (keys.filter (fun e => decide (e.keysym ∈ tagKeysyms))).length = 4 * tags.length ∧
    (∀ t : Fin tags.length,
      keys.filter (fun e => decide (e.keysym = tagKeysym t)) =
        [ ⟨MODKEY, tagKeysym t, .view, .ui (1 <<< t.val)⟩,
          ⟨MODKEY ||| ControlMask, tagKeysym t, .toggleview, .ui (1 <<< t.val)⟩,
          ⟨MODKEY ||| ShiftMask, tagKeysym t, .tag, .ui (1 <<< t.val)⟩,
          ⟨MODKEY ||| ControlMask ||| ShiftMask, tagKeysym t, .toggletag,
            .ui (1 <<< t.val)⟩ ]) ∧
    (∀ t j : Nat, (1 <<< t).testBit j = decide (t = j)) := by
  refine ⟨by decide, by decide, by decide, by decide, by decide, by decide,
    one_shiftLeft_testBit⟩

/-- C2: key dispatch over `keys` is exact-match and first-wins: `dispatchKey`
returns a result exactly when some entry has that modifier mask and key symbol,
the result is the earliest such entry in declaration order, and it returns
nothing for a pair that is not in the table. (MODKEY|ShiftMask, XK_Return)
yields spawn of `termcmd`; (MODKEY|ShiftMask|ControlMask, XK_Return) yields
nothing. -/
theorem dispatchKey_exact_first_match :
    (∀ m k, (dispatchKey m k).isSome = true ↔ ∃ e ∈ keys, e.mod = m ∧ e.keysym = k) ∧
    (∀ m k f a, dispatchKey m k = some (f, a) ↔
      ∃ pre post, keys = pre ++ ⟨m, k, f, a⟩ :: post ∧
        ∀ e ∈ pre, ¬ (e.mod = m ∧ e.keysym = k)) ∧
    (∀ m k, dispatchKey m k = none ↔ ∀ e ∈ keys, ¬ (e.mod = m ∧ e.keysym = k)) ∧
    dispatchKey (MODKEY ||| ShiftMask) XK_Return = some (.spawn, .v (.cmd .termcmd)) ∧
    dispatchKey (MODKEY ||| ShiftMask ||| ControlMask) XK_Return = none := by
  refine ⟨?_, ?_, ?_, by decide, by decide⟩
  · intro m k
    rw [← Option.ne_none_iff_isSome, Ne, dispatchKey, dispatchKeyIn_eq_none]
    push_neg
    rfl
  · intro m k f a
    exact dispatchKeyIn_eq_some keys m k f a
  · intro m k
    exact dispatchKeyIn_eq_none keys m k

/-- C3: rule resolution over `rules`: for every instance and title, class
"Gimp" resolves to the rule with tag mask 0, floating, monitor -1; class
"Firefox" resolves to the rule with tag mask `1 << 8`, not floating, monitor
-1; every other class resolves to no rule. -/
theorem resolveRule_table :
    (∀ inst title,
      resolveRule "Gimp" inst title = some ⟨some "Gimp", none, none, 0, true, -1⟩) ∧
    (∀ inst title,
      resolveRule "Firefox" inst title
        = some ⟨some "Firefox", none, none, 1 <<< 8, false, -1⟩) ∧
    (∀ cls inst title, cls ≠ "Gimp" → cls ≠ "Firefox" →
      resolveRule cls inst title = none) := by
  refine ⟨?_, ?_, ?_⟩
  · intro inst title
    simp [resolveRule, rules, resolveRuleIn, ruleMatches, fieldMatches, toUInt]
  · intro inst title
    simp [resolveRule, rules, resolveRuleIn, ruleMatches, fieldMatches, toUInt, UINT_BITS]
  · intro cls inst title h1 h2
    simp [resolveRule, rules, resolveRuleIn, ruleMatches, fieldMatches, Ne.symm h1,
      Ne.symm h2]

/-- Witness for C3: a terminal window of class "st" resolves to no rule. -/
theorem resolveRule_table_witness : resolveRule "st" "st" "zsh" = none :=
  resolveRule_table.2.2 "st" "st" "zsh" (by decide) (by decide)

/-- C4: `activeLayout 0` is the default layout, whose arrangement is `tile`; a
layout is floating exactly when it has no arrangement reference; `layouts` has
three entries, the floating one is the entry at index 1 and no other, and the
entry at index 2 is `monocle`. -/
theorem activeLayout_table :
    activeLayout 0 = some ⟨"", some .tile⟩ ∧ layouts.length = 3 ∧
    (∀ l : Layout, l.isFloating = true ↔ l.arrange = none) ∧
    (∀ i, (∃ l, activeLayout i = some l ∧ l.isFloating = true) ↔ i = 1) ∧
    (activeLayout 2).map Layout.arrange = some (some .monocle) := by
  refine ⟨by decide, by decide, ?_, ?_, by decide⟩
  · intro l
    cases h : l.arrange <;> simp [Layout.isFloating, h]
  · intro i
    match i with
    | 0 => simp [activeLayout, layouts, Layout.isFloating]
    | 1 => simp [activeLayout, layouts, Layout.isFloating]
    | 2 => simp [activeLayout, layouts, Layout.isFloating]
    | n + 3 => simp [activeLayout, layouts]

/-- C6: the command vectors with an absolute `argv[0]` are the eight media and
brightness vectors; seven of them lie under `/usr/bin/`, but `brightDec` names
`/ust/bin/xbacklight`, which is outside `/usr/bin/` and differs from
`brightInc[0]`; the brightness vectors differ in slot 0 as well as in the flag
slot 1; the binding (MODKEY|ShiftMask, XK_F9) spawns `brightDec`. -/
theorem brightDec_argv0_outside_usr_bin :
    allCmds.filter (fun c => (argv0 c).any isAbsolutePath)
      = [.upvol, .downvol, .mutevol, .play_pause, .next, .prev, .brightInc, .brightDec] ∧
    allCmds.filter (fun c => (argv0 c).any inUsrBin)
      = [.upvol, .downvol, .mutevol, .play_pause, .next, .prev, .brightInc] ∧
    argv0 .brightInc = some "/usr/bin/xbacklight" ∧
    argv0 .brightDec = some "/ust/bin/xbacklight" ∧
    (argv0 .brightDec).any inUsrBin = false ∧
    argv0 .brightInc ≠ argv0 .brightDec ∧
    differingSlots brightInc brightDec = [0, 1] ∧
    dispatchKey (MODKEY ||| ShiftMask) XK_F9 = some (.spawn, .v (.cmd .brightDec)) := by
  refine ⟨by decide, by decide, by decide, by decide, by decide, by decide, by decide,
    by decide⟩

/-- C7: `tags` has 9 labels, at most the 32 bits of the tag mask; the tag mask
of every entry of `rules` and the argument of every `TAGKEYS`-generated entry
of `keys` (the entries on the keys `XK_1` .. `XK_9`, which are the expansions
of `TAGKEYS` for the nine tags) is contained in `(1 << 9) - 1` and has no bit
set at a position `>= 9`. -/
theorem tag_masks_within_bound :
    tags.length = 9 ∧ tags.length ≤ UINT_BITS ∧ allTagsMask = (1 <<< 9) - 1 ∧
    (∀ r ∈ rules, r.tags &&& allTagsMask = r.tags ∧
      ∀ j, tags.length ≤ j → r.tags.testBit j = false) ∧
    (∀ e ∈ keys, e.keysym ∈ tagKeysyms → ∃ n, e.arg = .ui n ∧ n &&& allTagsMask = n ∧
      ∀ j, tags.length ≤ j → n.testBit j = false) ∧
    (∀ t : Fin tags.length, ∀ e ∈ TAGKEYS (tagKeysym t) t,
      e ∈ keys ∧ e.arg = .ui (1 <<< t.val) ∧
        (1 <<< t.val) &&& allTagsMask = 1 <<< t.val) := by
  refine ⟨by decide, by decide, by decide, ?_, ?_, by decide⟩
  · intro r hr
    have h : r.tags &&& allTagsMask = r.tags ∧ r.tags < 2 ^ tags.length := by
      revert r; decide
    exact ⟨h.1, testBit_false_of_lt_tagbits _ h.2⟩
  · intro e he hk
    obtain ⟨t, ht, harg⟩ := tagkey_args_single_bit e he hk
    have h : (1 <<< t) &&& allTagsMask = 1 <<< t ∧ 1 <<< t < 2 ^ tags.length := by
      have ht9 : t < 9 := ht
      interval_cases t <;> decide
    exact ⟨1 <<< t, harg, h.1, testBit_false_of_lt_tagbits _ h.2⟩

/-- Witness for C7: the Firefox rule has no tag bit at position 9. -/
theorem tag_masks_within_bound_witness :
    (toUInt (1 <<< 8)).testBit 9 = false :=
  (tag_masks_within_bound.2.2.2.1
    ⟨some "Firefox", none, none, toUInt (1 <<< 8), false, -1⟩ (by decide)).2 9 (by decide)

/-- C8: every command vector of the configuration ends in `NULL`, holds no
`NULL` before its last slot, and starts with a non-empty constant string; the
list `allCmds` names all fourteen vectors; the argument of every `spawn` entry
of `keys` and of `buttons` points at one of them. -/
theorem command_vectors_well_formed :
    allCmds.length = 14 ∧
    (∀ c : CmdId, c ∈ allCmds ∧ c.argv.getLast? = some .null ∧
      .null ∉ c.argv.dropLast ∧ ∃ s, c.argv.head? = some (.str s) ∧ s ≠ "") ∧
    (∀ e ∈ keys, e.func = .spawn → ∃ c ∈ allCmds, e.arg = .v (.cmd c)) ∧
    (∀ e ∈ buttons, e.func = .spawn → ∃ c ∈ allCmds, e.arg = .v (.cmd c)) := by
  refine ⟨by decide, ?_, by decide, by decide⟩
  intro c
  cases c <;> exact ⟨by decide, by decide, by decide, _, rfl, by decide⟩

/-- Witness for C8: the spawn binding of the status bar points at a declared
command vector. -/
theorem command_vectors_well_formed_witness :
    ∃ c ∈ allCmds, Arg.v (.cmd .termcmd) = .v (.cmd c) :=
  command_vectors_well_formed.2.2.2
    ⟨.ClkStatusText, 0, Button2, .spawn, .v (.cmd .termcmd)⟩ (by decide) rfl

/-- C9: no two entries of `keys` share a (modifier mask, key symbol) pair and
no two entries of `buttons` share a (click context, modifier mask, button)
triple, so first-match dispatch returns every declared entry for its own
lookup key. -/
theorem no_binding_shadowed :
    (keys.map (fun e => (e.mod, e.keysym))).Nodup ∧
    (buttons.map (fun e => (e.click, e.mask, e.button))).Nodup ∧
    (∀ e ∈ keys, dispatchKey e.mod e.keysym = some (e.func, e.arg)) ∧
    (∀ e ∈ buttons, dispatchButton e.click e.mask e.button = some (e.func, e.arg)) := by
  refine ⟨by decide, by decide, by decide, by decide⟩

/-- Witness for C9: the last key binding is returned for its own lookup key. -/
theorem no_binding_shadowed_witness :
    dispatchKey (MODKEY ||| ShiftMask) XK_F10 = some (.spawn, .v (.cmd .brightInc)) :=
  no_binding_shadowed.2.2.1
    ⟨MODKEY ||| ShiftMask, XK_F10, .spawn, .v (.cmd .brightInc)⟩ (by decide)

/-- C10: the argument of every `setlayout` entry of `keys` and `buttons` is
either `{0}` or `&layouts[i]` with `i` within the three entries of `layouts`,
and each layout is referenced: `layouts[0]` by (MODKEY, XK_t), `layouts[1]` by
(MODKEY|ShiftMask, XK_f), `layouts[2]` by (ClkLtSymbol, 0, Button3). -/
theorem setlayout_references_in_bounds :
    layouts.length = 3 ∧
    (∀ e ∈ keys, e.func = .setlayout →
      e.arg = .zero ∨ ∃ i, i < layouts.length ∧ e.arg = .v (.layout i)) ∧
    (∀ e ∈ buttons, e.func = .setlayout →
      e.arg = .zero ∨ ∃ i, i < layouts.length ∧ e.arg = .v (.layout i)) ∧
    (⟨MODKEY, XK_t, .setlayout, .v (.layout 0)⟩ : Key) ∈ keys ∧
    (⟨MODKEY ||| ShiftMask, XK_f, .setlayout, .v (.layout 1)⟩ : Key) ∈ keys ∧
    (⟨.ClkLtSymbol, 0, Button3, .setlayout, .v (.layout 2)⟩ : Button) ∈ buttons := by
  refine ⟨by decide, by decide, by decide, by decide, by decide, by decide⟩

/-- Witness for C10: the layout reference of the (ClkLtSymbol, 0, Button3)
binding is in bounds. -/
theorem setlayout_references_in_bounds_witness :
    Arg.v (.layout 2) = .zero ∨ ∃ i, i < layouts.length ∧ Arg.v (.layout 2) = .v (.layout i) :=
  setlayout_references_in_bounds.2.2.1
    ⟨.ClkLtSymbol, 0, Button3, .setlayout, .v (.layout 2)⟩ (by decide) rfl

end Dwm
